import Mathlib

/-!
Verification of the text-viewer window controller
(`src/text-viewer-window.c`) against its specification.

The embedding models:
  * the window's observable UI state (title, text buffer contents,
    cursor offset, cursor-position label) as `WindowState`;
  * the result of `g_file_load_contents_finish` as `ReadResult`
    (per the GLib contract, the call either yields the contents
    byte buffer or sets the error, never both);
  * `g_utf8_validate` / UTF-8 decoding as `utf8Decode` on byte lists
    (rejecting nul bytes within the validated range, overlong forms,
    surrogates and code points above U+10FFFF, as GLib does);
  * the GTK text-iterator queries `gtk_text_iter_get_line` and
    `gtk_text_iter_get_line_offset` as pure functions of the buffer
    contents (a list of Unicode code points) and a character offset;
  * the three callbacks `open_file_complete`, `on_open_response` and
    `text_view_window__update_cursor_postion` as pure state
    transformers, each also returning the list of diagnostic lines
    written to standard error during the call.

Since the GUI main loop is single-threaded and each callback runs to
completion before any other event is processed, one callback
invocation is modelled as one atomic step on `WindowState`.
-/

/-- Observable state of one `TextViewerWindow`: the window title
(`none` until first set, i.e. the toolkit default), the character
contents of the `GtkTextBuffer` backing `main_text_view` (a list of
Unicode code points), the buffer's cursor offset in characters, and
the text of the `cursor_pos` label. -/
structure WindowState where
  title : Option String
  text : List Nat
  cursorOffset : Nat
  cursorLabel : String
deriving Repr, DecidableEq

/-- A `GFile` as the callbacks see it: its path (`g_file_peek_path`),
its base name (`g_file_get_basename`), and the result of
`g_file_query_info (file, "standard::display-name", ...)` — `none`
when the metadata query fails. -/
structure GFile where
  path : String
  basename : String
  infoDisplayName : Option String
deriving Repr, DecidableEq

/-- Outcome of `g_file_load_contents_finish`: either the file's bytes
(read succeeded) or an error message (read failed).  Per the GLib
contract exactly one of the two out-parameters is produced. -/
inductive ReadResult where
  | ok (bytes : List Nat)
  | err (message : String)
deriving Repr, DecidableEq

/-- A UTF-8 continuation byte: `0x80 ≤ b ≤ 0xBF`. -/
def isCont (b : Nat) : Bool := 0x80 ≤ b && b ≤ 0xBF

/-- UTF-8 decoding of a byte sequence, `none` when the bytes are not
valid UTF-8 in the sense of `g_utf8_validate`: nul bytes (which GLib
rejects inside the validated range), overlong encodings, surrogate
code points and code points above U+10FFFF all make the sequence
invalid.  On success, returns the sequence of decoded code points. -/
def utf8Decode (bs : List Nat) : Option (List Nat) :=
  match bs with
  | [] => some []
  | b1 :: t1 =>
    if 1 ≤ b1 && b1 ≤ 0x7F then
      (utf8Decode t1).map (b1 :: ·)
    else
      match t1 with
      | [] => none
      | b2 :: t2 =>
        if 0xC2 ≤ b1 && b1 ≤ 0xDF && isCont b2 then
          (utf8Decode t2).map (((b1 - 0xC0) * 0x40 + (b2 - 0x80)) :: ·)
        else
          match t2 with
          | [] => none
          | b3 :: t3 =>
            if (b1 = 0xE0 && 0xA0 ≤ b2 && b2 ≤ 0xBF && isCont b3) ||
               (0xE1 ≤ b1 && b1 ≤ 0xEC && isCont b2 && isCont b3) ||
               (b1 = 0xED && 0x80 ≤ b2 && b2 ≤ 0x9F && isCont b3) ||
               (0xEE ≤ b1 && b1 ≤ 0xEF && isCont b2 && isCont b3) then
              (utf8Decode t3).map
                (((b1 - 0xE0) * 0x1000 + (b2 - 0x80) * 0x40 + (b3 - 0x80)) :: ·)
            else
              match t3 with
              | [] => none
              | b4 :: t4 =>
                if (b1 = 0xF0 && 0x90 ≤ b2 && b2 ≤ 0xBF && isCont b3 && isCont b4) ||
                   (0xF1 ≤ b1 && b1 ≤ 0xF3 && isCont b2 && isCont b3 && isCont b4) ||
                   (b1 = 0xF4 && 0x80 ≤ b2 && b2 ≤ 0x8F && isCont b3 && isCont b4) then
                  (utf8Decode t4).map
                    (((b1 - 0xF0) * 0x40000 + (b2 - 0x80) * 0x1000 +
                      (b3 - 0x80) * 0x40 + (b4 - 0x80)) :: ·)
                else
                  none

/-- `gtk_text_iter_get_line` for the iterator at character offset
`off` in buffer contents `cs`: the 0-based line number, i.e. the
number of newline characters strictly before the offset. -/
def gtk_text_iter_get_line (cs : List Nat) (off : Nat) : Nat :=
  (cs.take off).count 10

/-- `gtk_text_iter_get_line_offset` for the iterator at character
offset `off` in buffer contents `cs`: the 0-based character offset
from the start of the line, i.e. the number of characters after the
last newline strictly before the offset. -/
def gtk_text_iter_get_line_offset (cs : List Nat) (off : Nat) : Nat :=
  ((cs.take off).reverse.takeWhile (fun c => c ≠ 10)).length

/-- The `notify::cursor-position` handler
`text_view_window__update_cursor_postion`: reads the buffer's
`cursor-position` property, builds the iterator at that offset
(`gtk_text_buffer_get_iter_at_offset` clamps an out-of-range offset
to the end of the buffer), and writes
`"Ln {line+1}, Col {col+1}"` to the `cursor_pos` label. -/
def text_view_window__update_cursor_postion (st : WindowState) : WindowState :=
  let iterOff := min st.cursorOffset st.text.length
  let cursor_str :=
    "Ln " ++ toString (gtk_text_iter_get_line st.text iterOff + 1) ++
    ", Col " ++ toString (gtk_text_iter_get_line_offset st.text iterOff + 1)
  { st with cursorLabel := cursor_str }

/-- `gtk_text_buffer_set_text`: replaces the buffer's entire contents.
The insert mark (right gravity) ends up at the end of the inserted
text, and the connected `notify::cursor-position` handler fires. -/
def gtk_text_buffer_set_text (st : WindowState) (cps : List Nat) : WindowState :=
  text_view_window__update_cursor_postion
    { st with text := cps, cursorOffset := cps.length }

/-- `gtk_text_buffer_place_cursor` at the buffer's start iterator:
moves the cursor to offset 0 and fires the connected
`notify::cursor-position` handler. -/
def gtk_text_buffer_place_cursor_start (st : WindowState) : WindowState :=
  text_view_window__update_cursor_postion { st with cursorOffset := 0 }

/-- The display name computed at the top of `open_file_complete`:
the `standard::display-name` attribute when `g_file_query_info`
succeeded, otherwise `g_file_get_basename`. -/
def display_name_of (file : GFile) : String :=
  match file.infoDisplayName with
  | some n => n
  | none => file.basename

/-- The async-read completion callback `open_file_complete`,
generalized over the UTF-8 decoder so that reachability of the
validation step can be stated.  Returns the new window state and the
list of lines written to standard error.  Mirrors the C control flow:
compute the display name; on a read error print
`Unable to open “<path>”: <message>` and return; on invalid UTF-8
print `Unable to load the contents of “<path>”: the file is not
encoded with UTF-8` and return; otherwise set the buffer text,
place the cursor at the start, and set the window title. -/
def open_file_complete_with (decode : List Nat → Option (List Nat))
    (file : GFile) (result : ReadResult) (st : WindowState) :
    WindowState × List String :=
  let display_name := display_name_of file
  match result with
  | .err message =>
    (st, ["Unable to open “" ++ file.path ++ "”: " ++ message])
  | .ok contents =>
    match decode contents with
    | none =>
      (st, ["Unable to load the contents of “" ++ file.path ++
            "”: the file is not encoded with UTF-8"])
    | some cps =>
      let st1 := gtk_text_buffer_set_text st cps
      let st2 := gtk_text_buffer_place_cursor_start st1
      ({ st2 with title := some display_name }, [])

/-- `open_file_complete` proper: the generalized callback instantiated
with the real UTF-8 validation/decoding of `g_utf8_validate`. -/
def open_file_complete (file : GFile) (result : ReadResult)
    (st : WindowState) : WindowState × List String :=
  open_file_complete_with utf8Decode file result st

/-- The file-dialog completion callback `on_open_response`:
`gtk_file_dialog_open_finish` yields `some file` when the user chose
a file and `none` on cancellation.  Returns the (unchanged) window
state, the diagnostic lines written, and the file whose asynchronous
load was started by `open_file`, if any. -/
def on_open_response (chosen : Option GFile) (st : WindowState) :
    WindowState × List String × Option GFile :=
  match chosen with
  | none => (st, [], none)
  | some file => (st, [], some file)

/-- Specification-side line/column computation: walk the characters
before the cursor offset, starting at line 0, column 0; a newline
moves to the next line's column 0, any other character advances the
column. -/
def specLineColAux : List Nat → Nat × Nat → Nat × Nat
  | [], lc => lc
  | c :: cs, (l, k) =>
    if c = 10 then specLineColAux cs (l + 1, 0)
    else specLineColAux cs (l, k + 1)

/-- Specification-side 0-based line and column of a cursor offset. -/
def specLineCol (cs : List Nat) (off : Nat) : Nat × Nat :=
  specLineColAux (cs.take off) (0, 0)

/-- Processing a concatenation with the line/column walk is processing
the second part starting from the result of the first. -/
theorem specLineColAux_append (xs ys : List Nat) (lc : Nat × Nat) :
    specLineColAux (xs ++ ys) lc = specLineColAux ys (specLineColAux xs lc) := by
  induction xs generalizing lc with
  | nil => rfl
  | cons c cs ih =>
    obtain ⟨l, k⟩ := lc
    by_cases hc : c = 10 <;> simp [specLineColAux, hc, ih]

/-- The specification-side line/column walk agrees with the GTK
iterator queries: the line is the newline count before the offset and
the column is the length of the run of non-newline characters just
before the offset. -/
theorem specLineCol_eq_gtk (cs : List Nat) (off : Nat) :
    specLineCol cs off =
      (gtk_text_iter_get_line cs off, gtk_text_iter_get_line_offset cs off) := by
  unfold specLineCol gtk_text_iter_get_line gtk_text_iter_get_line_offset
  generalize cs.take off = xs
  induction xs using List.reverseRecOn with
  | nil => rfl
  | append_singleton ys y ih =>
    rw [specLineColAux_append, ih]
    by_cases hy : y = 10
    · simp [specLineColAux, hy, List.takeWhile_cons, List.count_append]
    · simp [specLineColAux, hy, List.takeWhile_cons, List.count_append,
        List.count_eq_zero, Ne.symm hy]

/-- Helper: on a successful read of valid UTF-8 bytes,
`open_file_complete` produces the fully determined window state —
title set to the display name, text set to the decoded code points,
cursor at offset 0, label showing line 1 column 1 — and writes no
diagnostics, regardless of the previous state. -/
theorem open_file_complete_ok (file : GFile) (bytes cps : List Nat)
    (st : WindowState) (h : utf8Decode bytes = some cps) :
    open_file_complete file (.ok bytes) st =
      ({ title := some (display_name_of file), text := cps,
         cursorOffset := 0, cursorLabel := "Ln 1, Col 1" }, []) := by
  simp [open_file_complete, open_file_complete_with, h,
    gtk_text_buffer_set_text, gtk_text_buffer_place_cursor_start,
    text_view_window__update_cursor_postion,
    gtk_text_iter_get_line, gtk_text_iter_get_line_offset]
  rfl

/-- C1: for every file whose read succeeds and whose contents are
valid UTF-8, `open_file_complete` sets the text-display buffer to
exactly the file's bytes decoded as UTF-8, places the cursor at the
start of the document (offset 0), and sets the window title to the
file's display name; no diagnostics are written. -/
theorem open_success_sets_text_cursor_title (file : GFile)
    (bytes cps : List Nat) (st : WindowState)
    (h : utf8Decode bytes = some cps) :
    open_file_complete file (.ok bytes) st =
      ({ title := some (display_name_of file), text := cps,
         cursorOffset := 0, cursorLabel := "Ln 1, Col 1" }, []) :=
  open_file_complete_ok file bytes cps st h

/-- Witness for C1 at the two-byte file "Hi". -/
theorem open_success_sets_text_cursor_title_witness :
    utf8Decode [72, 105] = some [72, 105] ∧
    open_file_complete ⟨"/tmp/a.txt", "a.txt", some "a.txt"⟩ (.ok [72, 105])
        ⟨none, [], 0, ""⟩ =
      ({ title := some (display_name_of ⟨"/tmp/a.txt", "a.txt", some "a.txt"⟩),
         text := [72, 105], cursorOffset := 0,
         cursorLabel := "Ln 1, Col 1" }, []) :=
  ⟨rfl, open_success_sets_text_cursor_title _ _ _ _ rfl⟩

/-- C2: for every file whose read succeeds but whose bytes are not
valid UTF-8, `open_file_complete` returns the window state unchanged
(title, text content and cursor position included) and writes exactly
one diagnostic line, `Unable to load the contents of “<path>”: the
file is not encoded with UTF-8`, containing the file's path (the C
code quotes the path with typographic quotation marks). -/
theorem invalid_utf8_leaves_state_and_reports (file : GFile)
    (bytes : List Nat) (st : WindowState) (h : utf8Decode bytes = none) :
    open_file_complete file (.ok bytes) st =
      (st, ["Unable to load the contents of “" ++ file.path ++
            "”: the file is not encoded with UTF-8"]) := by
  simp [open_file_complete, open_file_complete_with, h]

/-- Witness for C2 at the invalid byte sequence `C0 80`. -/
theorem invalid_utf8_leaves_state_and_reports_witness :
    utf8Decode [192, 128] = none ∧
    open_file_complete ⟨"/tmp/b.bin", "b.bin", some "b.bin"⟩ (.ok [192, 128])
        ⟨some "old", [104], 1, "Ln 1, Col 2"⟩ =
      (⟨some "old", [104], 1, "Ln 1, Col 2"⟩,
       ["Unable to load the contents of “/tmp/b.bin”: the file is not encoded with UTF-8"]) :=
  ⟨rfl, invalid_utf8_leaves_state_and_reports _ _ _ rfl⟩

/-- C3: for every file whose asynchronous read fails,
`open_file_complete` writes exactly one diagnostic line
`Unable to open “<path>”: <message>` with the file's path and the
error message, and returns the window state unchanged — title, text
buffer and cursor label untouched.  The handler is a total function
of its inputs, so no exception propagates. -/
theorem read_error_leaves_state_and_reports (file : GFile)
    (message : String) (st : WindowState) :
    open_file_complete file (.err message) st =
      (st, ["Unable to open “" ++ file.path ++ "”: " ++ message]) := rfl

/-- C4: immediately after a cursor-position change notification, for
any cursor offset between 0 and the document length the cursor label
reads `Ln {line+1}, Col {col+1}`, where `line` and `col` are the
0-based line number and 0-based column of that offset as computed by
the specification-side walk `specLineCol`. -/
theorem cursor_label_reflects_line_col (st : WindowState)
    (h : st.cursorOffset ≤ st.text.length) :
    (text_view_window__update_cursor_postion st).cursorLabel =
      "Ln " ++ toString ((specLineCol st.text st.cursorOffset).1 + 1) ++
      ", Col " ++ toString ((specLineCol st.text st.cursorOffset).2 + 1) := by
  simp [text_view_window__update_cursor_postion, Nat.min_eq_left h,
    specLineCol_eq_gtk]

/-- Witness for C4 at the buffer "H\nab" with the cursor at the end. -/
theorem cursor_label_reflects_line_col_witness :
    (⟨none, [72, 10, 97, 98], 4, ""⟩ : WindowState).cursorOffset ≤
      (⟨none, [72, 10, 97, 98], 4, ""⟩ : WindowState).text.length ∧
    (text_view_window__update_cursor_postion
        ⟨none, [72, 10, 97, 98], 4, ""⟩).cursorLabel =
      "Ln " ++ toString ((specLineCol [72, 10, 97, 98] 4).1 + 1) ++
      ", Col " ++ toString ((specLineCol [72, 10, 97, 98] 4).2 + 1) :=
  ⟨by decide, cursor_label_reflects_line_col ⟨none, [72, 10, 97, 98], 4, ""⟩
    (by decide)⟩

/-- C5: each run of `open_file_complete` either leaves both the
window title and the text content exactly as they were, or updates
both together to the new file's display name and decoded contents.
Since the callback runs atomically on the single-threaded main loop,
no state with only one of the two updated is observable. -/
theorem title_and_text_update_atomically (file : GFile)
    (result : ReadResult) (st : WindowState) :
    ((open_file_complete file result st).1.title = st.title ∧
     (open_file_complete file result st).1.text = st.text) ∨
    (∃ bytes cps, result = .ok bytes ∧ utf8Decode bytes = some cps ∧
      (open_file_complete file result st).1.title = some (display_name_of file) ∧
      (open_file_complete file result st).1.text = cps) := by
  cases result with
  | err message => exact Or.inl ⟨rfl, rfl⟩
  | ok bytes =>
    cases h : utf8Decode bytes with
    | none =>
      left
      simp [open_file_complete, open_file_complete_with, h]
    | some cps =>
      right
      exact ⟨bytes, cps, rfl, h,
        by rw [open_file_complete_ok file bytes cps st h],
        by rw [open_file_complete_ok file bytes cps st h]⟩

/-- C6: when the user cancels the file-selection dialog,
`on_open_response` changes no window state, writes no diagnostics and
starts no load. -/
theorem cancel_dialog_is_noop (st : WindowState) :
    on_open_response none st = (st, [], none) := rfl

/-- C7: on successful load the title is set to the display name,
which is the file's `standard::display-name` attribute when the
metadata query succeeded and the file's base name otherwise. -/
theorem title_uses_display_name_with_fallback (file : GFile)
    (bytes cps : List Nat) (st : WindowState)
    (h : utf8Decode bytes = some cps) :
    (open_file_complete file (.ok bytes) st).1.title =
      some (display_name_of file) ∧
    (∀ n, file.infoDisplayName = some n → display_name_of file = n) ∧
    (file.infoDisplayName = none → display_name_of file = file.basename) := by
  refine ⟨by rw [open_file_complete_ok file bytes cps st h], ?_, ?_⟩
  · intro n hn
    simp [display_name_of, hn]
  · intro hn
    simp [display_name_of, hn]

/-- Witness for C7 at a file whose metadata query failed. -/
theorem title_uses_display_name_with_fallback_witness :
    utf8Decode [104] = some [104] ∧
    ((open_file_complete ⟨"/d/x.txt", "x.txt", none⟩ (.ok [104])
        ⟨none, [], 0, ""⟩).1.title =
          some (display_name_of ⟨"/d/x.txt", "x.txt", none⟩) ∧
     (∀ n, (⟨"/d/x.txt", "x.txt", none⟩ : GFile).infoDisplayName = some n →
        display_name_of ⟨"/d/x.txt", "x.txt", none⟩ = n) ∧
     ((⟨"/d/x.txt", "x.txt", none⟩ : GFile).infoDisplayName = none →
        display_name_of ⟨"/d/x.txt", "x.txt", none⟩ =
          (⟨"/d/x.txt", "x.txt", none⟩ : GFile).basename)) :=
  ⟨rfl, title_uses_display_name_with_fallback _ _ _ _ rfl⟩

/-- C8: if the load of file A fully completes before the load of a
valid-UTF-8 file B starts, the final window state equals the state
produced by loading B alone from the same initial state: the second
successful load completely overwrites the effect of the first. -/
theorem second_load_overwrites_first (fileA fileB : GFile)
    (resA : ReadResult) (bytesB cpsB : List Nat) (st : WindowState)
    (h : utf8Decode bytesB = some cpsB) :
    (open_file_complete fileB (.ok bytesB)
        (open_file_complete fileA resA st).1).1 =
      (open_file_complete fileB (.ok bytesB) st).1 := by
  rw [open_file_complete_ok fileB bytesB cpsB _ h,
    open_file_complete_ok fileB bytesB cpsB st h]

/-- Witness for C8: a failed load of A followed by a load of B. -/
theorem second_load_overwrites_first_witness :
    utf8Decode [104, 105] = some [104, 105] ∧
    (open_file_complete ⟨"/b", "b", some "B"⟩ (.ok [104, 105])
        (open_file_complete ⟨"/a", "a", none⟩ (.err "boom")
          ⟨none, [], 0, ""⟩).1).1 =
      (open_file_complete ⟨"/b", "b", some "B"⟩ (.ok [104, 105])
        ⟨none, [], 0, ""⟩).1 :=
  ⟨rfl, second_load_overwrites_first _ _ _ _ _ _ rfl⟩

/-- C9: on a read error the completion handler returns — with the
state unchanged and only the open-error diagnostic — before the
UTF-8 validation step: the result is the same for every possible
decoder, so the validation never runs and never inspects a buffer
that the failed read did not produce (per the GLib contract, the
contents buffer exists exactly when there is no error, as `ReadResult`
models). -/
theorem validation_only_after_successful_read
    (decode : List Nat → Option (List Nat)) (file : GFile)
    (message : String) (st : WindowState) :
    open_file_complete_with decode file (.err message) st =
      (st, ["Unable to open “" ++ file.path ++ "”: " ++ message]) := rfl

/-- C10: a readable file of zero bytes loads successfully: the empty
byte sequence is valid UTF-8, the text-display content becomes empty,
the cursor is at the start, and the title is set to the file's
display name. -/
theorem empty_file_loads_successfully (file : GFile) (st : WindowState) :
    utf8Decode [] = some [] ∧
    open_file_complete file (.ok []) st =
      ({ title := some (display_name_of file), text := [],
         cursorOffset := 0, cursorLabel := "Ln 1, Col 1" }, []) :=
  ⟨rfl, open_file_complete_ok file [] [] st rfl⟩
